import Mathlib

/-!
Verification of the pytest-enhanced-reports plugin core
(capture-policy engine, screenshot/console capturers, video recorder),
shallowly embedded from the Python sources in `src/enhanced_reports/`.
-/

namespace EnhancedReports

/-! ## Configuration model (`config.py`) -/

/-- `EnhancedReportOperationFrequency` from `config.py`. -/
inductive OpFreq
  | ALWAYS
  | EACH_UI_OPERATION
  | END_OF_EACH_TEST
  | FAILED_TEST_ONLY
  | NEVER
  deriving DecidableEq, Repr

/-- `EnhancedReportTestState` from `core.py`. -/
inductive TestState
  | BEFORE_TEST
  | CUSTOM_DURING_TEST
  | AFTER_TEST
  | BEFORE_UI_OPERATION
  | AFTER_UI_OPERATION
  | ERROR
  | FAILED
  | PASSED
  | SKIPPED
  deriving DecidableEq, Repr

/-- `EnhancedReportAttachments` from `core.py`. -/
inductive Attachment
  | JS_LOG
  | SS
  | SS_WITH_HIGHLIGHT
  | VIDEO
  deriving DecidableEq, Repr

/-- The `Parameter` members of `config.py` that the capture gate consults. -/
inductive Parameter
  | JS_LOG_FREQUENCY
  | SS_FREQUENCY
  | SS_HIGHLIGHT_ELEMENT
  | VIDEO_ENABLED
  deriving DecidableEq, Repr

/-- A Python value stored in the `__report_options` dict for a gate-relevant
parameter: frequency parameters hold `EnhancedReportOperationFrequency`
enum members, the highlight and video parameters hold `bool`s
(see the `cast_to` entries in `config.py`). -/
inductive ParamValue
  | freq (f : OpFreq)
  | pybool (b : Bool)
  deriving DecidableEq, Repr

/-- Python truthiness of a gate-relevant parameter value: enum members are
always truthy; a bool is its own truth value. -/
def ParamValue.truthy : ParamValue → Bool
  | .freq _ => true
  | .pybool b => b

/-- Python membership test `param_value in <set of OpFreq members>`.
A `bool` compares unequal to every `Enum` member (plain `Enum` equality is
identity), so only a frequency value can be a member. -/
def ParamValue.memFreqSet : ParamValue → List OpFreq → Bool
  | .freq f, s => s.contains f
  | .pybool _, _ => false

/-- The gate-relevant slice of the resolved `__report_options` mapping. -/
structure Config where
  js_log_frequency : OpFreq
  ss_frequency : OpFreq
  ss_highlight_element : Bool
  video_enabled : Bool
  deriving DecidableEq, Repr

/-- Lookup `__report_options[p]` for the gate-relevant parameters. -/
def Config.reportOptions (c : Config) : Parameter → ParamValue
  | .JS_LOG_FREQUENCY => .freq c.js_log_frequency
  | .SS_FREQUENCY => .freq c.ss_frequency
  | .SS_HIGHLIGHT_ELEMENT => .pybool c.ss_highlight_element
  | .VIDEO_ENABLED => .pybool c.video_enabled

/-! ## Policy table and capture gate (`core.py`) -/

/-- `__state_and_allowed_frequencies` from `core.py`: maps each test state to
the set of operation frequencies that allow data capture in that state. -/
def state_and_allowed_frequencies : TestState → List OpFreq
  | .BEFORE_TEST => [.ALWAYS]
  | .BEFORE_UI_OPERATION => [.ALWAYS, .EACH_UI_OPERATION]
  | .AFTER_UI_OPERATION => [.ALWAYS, .EACH_UI_OPERATION]
  | .AFTER_TEST => [.ALWAYS, .END_OF_EACH_TEST]
  | .ERROR => [.ALWAYS, .END_OF_EACH_TEST, .FAILED_TEST_ONLY]
  | .FAILED => [.ALWAYS, .END_OF_EACH_TEST, .FAILED_TEST_ONLY]
  | .PASSED => [.ALWAYS, .END_OF_EACH_TEST]
  | .CUSTOM_DURING_TEST => []
  | .SKIPPED => []

/-- `__attachment_and_config` from `core.py`: maps each attachment type to
its governing configuration parameter. -/
def attachment_and_config : Attachment → Parameter
  | .JS_LOG => .JS_LOG_FREQUENCY
  | .SS => .SS_FREQUENCY
  | .SS_WITH_HIGHLIGHT => .SS_HIGHLIGHT_ELEMENT
  | .VIDEO => .VIDEO_ENABLED

/-- `__can_record` from `core.py` (lines 145-185), the capture gate.
First guard: `not param_value or param_value not in
__state_and_allowed_frequencies[current_state]` — the membership test is
applied to the raw parameter value, boolean-valued parameters included.
Then the VIDEO and SS_WITH_HIGHLIGHT special cases. -/
def can_record (c : Config) (attachment_type : Attachment)
    (current_state : TestState) : Bool :=
  let param_value := c.reportOptions (attachment_and_config attachment_type)
  if !param_value.truthy
      || !param_value.memFreqSet (state_and_allowed_frequencies current_state)
  then
    false
  else
    -- `can_record: bool = True` and the two special-case branches
    if attachment_type = .VIDEO && !param_value.truthy then
      false
    else if attachment_type = .SS_WITH_HIGHLIGHT then
      if !param_value.truthy
          || !(c.reportOptions .SS_FREQUENCY).memFreqSet
                (state_and_allowed_frequencies current_state)
      then false
      else true
    else
      true

/-- The `_video_capture` fixture (`core.py` lines 501-537) initializes a
`ScreenRecorder`, starts the recorder thread and registers the
stop-and-stitch finalizer exactly when the gate admits VIDEO in state
BEFORE_TEST; otherwise no session is created. -/
def video_session_created (c : Config) : Bool :=
  can_record c .VIDEO .BEFORE_TEST

end EnhancedReports

namespace EnhancedReports

/-- C1: the claim states that with `screenshot_frequency = FAILED_TEST_ONLY`
and `highlight = true` the gate permits a highlighted screenshot in state
FAILED. In the code the first guard of `__can_record` tests the raw
parameter value — here the boolean `True` — for membership in a set of
frequency-enum members, which always fails, so the gate rejects
SS_WITH_HIGHLIGHT in every state, FAILED included. -/
theorem C1_highlight_gate_always_false :
    (∀ (c : Config) (st : TestState),
        can_record c .SS_WITH_HIGHLIGHT st = false) ∧
    can_record ⟨.FAILED_TEST_ONLY, .FAILED_TEST_ONLY, true, true⟩
      .SS_WITH_HIGHLIGHT .FAILED = false := by
  constructor
  · intro c st
    simp [can_record, Config.reportOptions, attachment_and_config,
      ParamValue.memFreqSet]
  · rfl

/-- C2: the claim states that with the video flag true the gate permits
VIDEO in state BEFORE_TEST and a recording session is created. In the code
the first guard of `__can_record` tests the boolean flag for membership in
a set of frequency-enum members, which always fails, so VIDEO is rejected
in every state and `_video_capture` never creates a session, even with the
flag on. -/
theorem C2_video_gate_always_false :
    (∀ (c : Config) (st : TestState), can_record c .VIDEO st = false) ∧
    can_record ⟨.FAILED_TEST_ONLY, .EACH_UI_OPERATION, false, true⟩
      .VIDEO .BEFORE_TEST = false ∧
    (∀ c : Config, video_session_created c = false) := by
  refine ⟨?_, rfl, ?_⟩
  · intro c st
    simp [can_record, Config.reportOptions, attachment_and_config,
      ParamValue.memFreqSet]
  · intro c
    simp [video_session_created, can_record, Config.reportOptions,
      attachment_and_config, ParamValue.memFreqSet]

/-- C8: for every artifact type and state, the gate returns false whenever
the governing parameter is NEVER (frequency parameters) or false (boolean
parameters), and with a fixed configuration the result is deterministic. -/
theorem C8_never_or_false_blocks_capture (c : Config) (a : Attachment)
    (s : TestState)
    (h : c.reportOptions (attachment_and_config a) = .freq .NEVER ∨
         c.reportOptions (attachment_and_config a) = .pybool false) :
    can_record c a s = false ∧ can_record c a s = can_record c a s := by
  refine ⟨?_, rfl⟩
  obtain ⟨j, sf, hl, ve⟩ := c
  cases a <;>
    simp only [Config.reportOptions, attachment_and_config] at h <;>
    rcases h with h | h <;>
      first
        | (injection h with h; subst h; cases s <;> rfl)
        | exact absurd h (by simp)

/-- C8 witness: the theorem applied at a concrete configuration whose
console-log frequency is NEVER, in state ERROR. -/
theorem C8_never_or_false_blocks_capture_witness :
    can_record ⟨.NEVER, .ALWAYS, true, true⟩ .JS_LOG .ERROR = false ∧
    can_record ⟨.NEVER, .ALWAYS, true, true⟩ .JS_LOG .ERROR =
      can_record ⟨.NEVER, .ALWAYS, true, true⟩ .JS_LOG .ERROR :=
  C8_never_or_false_blocks_capture ⟨.NEVER, .ALWAYS, true, true⟩ .JS_LOG
    .ERROR (Or.inl rfl)

end EnhancedReports

namespace EnhancedReports

/-! ## Video manager (`video_manager.py`) -/

/-- Python exceptions that the video pipeline can raise. -/
inductive PyErr
  | valueError          -- `int()` applied to a non-numeric string
  | indexError          -- `[...][0]` on an empty list
  | fileNotFoundError   -- `os.listdir` on a missing directory
  | cv2Error            -- raised by the cv2 writer calls
  | attachError         -- raised by `allure.attach.file`
  | webDriverError      -- raised by a selenium driver call
  deriving DecidableEq, Repr

/-- Python `str.endswith(suffix)`. -/
def pyEndsWith (s suffix : String) : Bool :=
  suffix.toList.isSuffixOf s.toList

/-- Leading/trailing-whitespace strip performed by Python `int` on string
input. -/
def pyStripWs (l : List Char) : List Char :=
  ((l.dropWhile Char.isWhitespace).reverse.dropWhile Char.isWhitespace).reverse

/-- Digit-string parse used by Python `int`: nonempty, all decimal digits.
(Numeric-grouping underscores are not modelled; no frame filename in this
program contains them.) -/
def pyIntDigits? (l : List Char) : Option Nat :=
  if l ≠ [] ∧ l.all (·.isDigit) then
    some (l.foldl (fun a c => a * 10 + (c.toNat - '0'.toNat)) 0)
  else none

/-- Python `int(s)` on a string: strip whitespace, optional sign, decimal
digits; anything else raises ValueError (modelled as `none`). -/
def pyInt? (s : String) : Option Int :=
  match pyStripWs s.toList with
  | '+' :: rest => (pyIntDigits? rest).map Int.ofNat
  | '-' :: rest => (pyIntDigits? rest).map (fun n => -(n : Int))
  | rest => (pyIntDigits? rest).map Int.ofNat

/-- The root part of `os.path.splitext(p)` for a path with no directory
separator: split at the last dot, unless every character before that dot
is itself a dot (then there is no extension). -/
def splitextRoot (p : String) : String :=
  let chars := p.toList
  match chars.reverse.findIdx? (· = '.') with
  | none => p
  | some ridx =>
    let dotIdx := chars.length - 1 - ridx
    if (chars.take dotIdx).any (· ≠ '.') then
      String.mk (chars.take dotIdx)
    else p

/-- Stable ascending insertion of a keyed element: placed after every
already-placed element whose key is not greater, matching the stability of
Python `sorted`. -/
def insertKeyed (x : Int × String) :
    List (Int × String) → List (Int × String)
  | [] => [x]
  | y :: ys => if y.1 ≤ x.1 then y :: insertKeyed x ys else x :: y :: ys

/-- Stable ascending sort by key, matching Python `sorted` on keyed pairs. -/
def sortKeyed (l : List (Int × String)) : List (Int × String) :=
  l.foldl (fun acc x => insertKeyed x acc) []

/-- `sorted(image_files, key=lambda x: int(os.path.splitext(x)[0]))` from
`create_video_from_images`: computing the key raises ValueError as soon as
one filename's root is not a Python integer literal; otherwise the list is
stably sorted by the integer value of the whole root. -/
def sortByNumericRoot (files : List String) : Except PyErr (List String) :=
  match files.mapM (fun f => (pyInt? (splitextRoot f)).map (fun k => (k, f))) with
  | none => .error .valueError
  | some keyed => .ok ((sortKeyed keyed).map (·.2))

/-- A frame file in the scratch directory: its filename and the resolution
of the stored image. -/
structure Frame where
  name : String
  width : Int
  height : Int
  deriving DecidableEq, Repr

/-- The filesystem state a `ScreenRecorder` touches: the scratch frame
directory (`none` when the directory does not exist). -/
structure RecorderFS where
  scratch : Option (List Frame)
  deriving DecidableEq, Repr

/-- `common_utils.delete_dir` applied to the scratch directory: afterwards
the directory does not exist (a no-op when it already does not). -/
def delete_dir (fs : RecorderFS) : RecorderFS :=
  { fs with scratch := none }

/-- Outcomes of the external collaborators used while stitching: the cv2
video writer and the report-sink attach call either succeed or raise. -/
structure StitchEnv where
  writer_ok : Bool
  attach_ok : Bool
  deriving DecidableEq, Repr

/-- The gate-independent video options from `__report_options` that the
`ScreenRecorder` methods read. -/
structure VideoOpts where
  video_width : Int
  video_height : Int
  video_resize_percent : Int
  video_frame_rate : Int
  video_keep_files : Bool
  deriving DecidableEq, Repr

/-- Python `int()` on a number: truncation toward zero. Factors such as
`percent / 100` are modelled as exact rationals rather than binary
floats. -/
def pyTrunc (q : ℚ) : Int := q.num.tdiv q.den

/-- `common_utils.get_resized_resolution`: scale width and height by the
resize factor and truncate like Python `int()`. -/
def get_resized_resolution (width height : Int) (resize_factor : ℚ) :
    Int × Int :=
  (pyTrunc ((width : ℚ) * resize_factor),
   pyTrunc ((height : ℚ) * resize_factor))

/-- `ScreenRecorder.get_video_resize_resolution`: use the configured
width/height unless both are zero, in which case scale the first listed
frame's resolution by the configured percentage. Its own `try/except`
catches the listdir/IndexError failures (no frame yet, or scratch dir
missing), deletes the scratch directory and falls through returning `None`
(modelled as `none`). -/
def get_video_resize_resolution (opts : VideoOpts) (fs : RecorderFS) :
    Option (Int × Int) × RecorderFS :=
  -- `self.__desired_resolution` and `self.__resize_factor` are set to None
  -- in `__init__` and never assigned, so the config values are always used.
  let desired := (opts.video_width, opts.video_height)
  let resize_factor : ℚ := (opts.video_resize_percent : ℚ) / 100
  if desired = (0, 0) then
    match fs.scratch with
    | none => (none, delete_dir fs)  -- os.listdir raises, caught internally
    | some frames =>
      match frames.filter (fun f => pyEndsWith f.name ".png") with
      | [] => (none, delete_dir fs)  -- `[...][0]` raises, caught internally
      | f :: _ =>
        (some (get_resized_resolution f.width f.height resize_factor), fs)
  else (some desired, fs)

/-- `ScreenRecorder.create_video_from_images`: construct the cv2 writer
(raising when the frame size is `None` — the failure value of
`get_video_resize_resolution` — or when the writer itself fails), list the
`.png` files of the scratch directory, sort them by the numeric value of
their filename root (raising ValueError on non-numeric roots), and write
them in that order. Returns the video path and the stitched frame order. -/
def create_video_from_images (env : StitchEnv)
    (scenario_info location : String) (video_size : Option (Int × Int))
    (fs : RecorderFS) : Except PyErr (String × List String) × RecorderFS :=
  let video_name := location ++ "/" ++ scenario_info ++ ".webm"
  if video_size.isNone || !env.writer_ok then
    (.error .cv2Error, fs)
  else
    match fs.scratch with
    | none => (.error .fileNotFoundError, fs)  -- os.listdir on missing dir
    | some frames =>
      let image_files := (frames.map (·.name)).filter (fun f => pyEndsWith f ".png")
      match sortByNumericRoot image_files with
      | .error e => (.error e, fs)
      | .ok ordered => (.ok (video_name, ordered), fs)

/-- `common_utils.get_image_resolution` on the scratch directory (no
explicit file name): resolution of the first listed `.png`, raising when
the directory is missing or holds no png. -/
def get_image_resolution (fs : RecorderFS) : Except PyErr (Int × Int) :=
  match fs.scratch with
  | none => .error .fileNotFoundError
  | some frames =>
    match frames.filter (fun f => pyEndsWith f.name ".png") with
    | [] => .error .indexError
    | f :: _ => .ok (f.width, f.height)

/-- The `try` body of `ScreenRecorder.stop_recording_and_stitch_video`:
set the stop flag, join the recorder thread (no filesystem effect), compute
the resize resolution, stitch into the scratch directory, attach the file,
and when keep-files is configured stitch a native-resolution copy into the
persistent store. The first raising step aborts the body. -/
def stop_and_stitch_body (env : StitchEnv) (directory video_store : String)
    (opts : VideoOpts) (scenario_info : String) (fs : RecorderFS) :
    Except PyErr Unit × RecorderFS :=
  let (video_resize_info, fs) := get_video_resize_resolution opts fs
  match create_video_from_images env scenario_info directory
      video_resize_info fs with
  | (.error e, fs) => (.error e, fs)
  | (.ok _, fs) =>
    if !env.attach_ok then (.error .attachError, fs)  -- allure.attach.file
    else if opts.video_keep_files then
      match get_image_resolution fs with
      | .error e => (.error e, fs)
      | .ok original_size =>
        match create_video_from_images env scenario_info video_store
            (some original_size) fs with
        | (.error e, fs) => (.error e, fs)
        | (.ok _, fs) => (.ok (), fs)
    else (.ok (), fs)

/-- Python `try: body except Exception: log finally: delete_dir(...)`:
the handler only logs, so no exception escapes, and the scratch directory
is deleted on both paths. -/
def tryExceptFinallyDelete {α : Type}
    (body : RecorderFS → Except PyErr α × RecorderFS) (fs : RecorderFS) :
    Except PyErr Unit × RecorderFS :=
  match body fs with
  | (.ok _, fs') => (.ok (), delete_dir fs')
  | (.error _, fs') => (.ok (), delete_dir fs')

/-- `ScreenRecorder.stop_recording_and_stitch_video`: the body above inside
`try/except Exception/finally common_utils.delete_dir(self.__directory)`. -/
def stop_recording_and_stitch_video (env : StitchEnv)
    (directory video_store : String) (opts : VideoOpts)
    (scenario_info : String) (fs : RecorderFS) :
    Except PyErr Unit × RecorderFS :=
  tryExceptFinallyDelete
    (stop_and_stitch_body env directory video_store opts scenario_info) fs

end EnhancedReports

namespace EnhancedReports

/-- C3: the claim states frames are stitched in increasing numeric-suffix
order, e.g. frame2.png, frame10.png, frame1.png stitch as frame1, frame2,
frame10. The sort key is `int()` of the whole filename root, which raises
ValueError on `frame2` — and on the `vid_frameN` names the capture loop
itself produces — so stitching raises instead of ordering these files; only
fully numeric roots sort. -/
theorem C3_stitch_sort_raises_on_frame_names :
    sortByNumericRoot ["frame2.png", "frame10.png", "frame1.png"] =
      .error .valueError ∧
    sortByNumericRoot ["vid_frame0.png", "vid_frame1.png", "vid_frame2.png"] =
      .error .valueError ∧
    (create_video_from_images ⟨true, true⟩ "scenario" "scenario"
        (some (800, 600))
        ⟨some [⟨"vid_frame1.png", 800, 600⟩, ⟨"vid_frame0.png", 800, 600⟩]⟩).1 =
      .error .valueError ∧
    sortByNumericRoot ["2.png", "10.png", "1.png"] =
      .ok ["1.png", "2.png", "10.png"] := by
  refine ⟨rfl, rfl, rfl, rfl⟩

/-- C5: for every outcome of `stop_recording_and_stitch_video` — successful
stitch, stitching/attachment error, or stop before any frame was written
(empty or missing scratch directory) — no exception escapes and the scratch
frame directory does not exist afterwards. -/
theorem C5_stop_and_stitch_purges_and_never_raises (env : StitchEnv)
    (directory video_store : String) (opts : VideoOpts)
    (scenario_info : String) (fs : RecorderFS) :
    (stop_recording_and_stitch_video env directory video_store opts
        scenario_info fs).1 = .ok () ∧
    (stop_recording_and_stitch_video env directory video_store opts
        scenario_info fs).2.scratch = none := by
  unfold stop_recording_and_stitch_video tryExceptFinallyDelete
  rcases h : stop_and_stitch_body env directory video_store opts
      scenario_info fs with ⟨r, fs'⟩
  cases r <;> simp [delete_dir]

end EnhancedReports

namespace EnhancedReports

/-! ## Frame-capture loop (`ScreenRecorder.start_capturing`) -/

/-- The environment a run of the capture loop executes in: `saveOk n` tells
whether `driver.save_screenshot` succeeds at iteration `n`, and `stopAt n`
is the value of the shared `self.stop` flag that the check at the end of
iteration `n` observes (the controller may set it at any time). -/
structure LoopEnv where
  saveOk : Nat → Bool
  stopAt : Nat → Bool

/-- How the loop body ends: `break` after seeing the stop flag, or an
exception from `save_screenshot` caught by the method's `except` clause. -/
inductive LoopExit
  | normal
  | exception
  deriving DecidableEq, Repr

/-- The frame filename written at iteration `count`:
`f"/vid_frame{count}.png"` (scratch-directory prefix omitted). -/
def frameName (count : Nat) : String :=
  "vid_frame" ++ toString count ++ ".png"

/-- The `while True` loop of `start_capturing`: save a frame, increment the
counter, then check the stop flag and break if set. Fuel-bounded; `none`
models the run not having terminated within `fuel` iterations. Returns the
frame files written and the way the loop ended. -/
def capture_loop (env : LoopEnv) :
    Nat → Nat → List String → Option (List String × LoopExit)
  | 0, _, _ => none
  | fuel + 1, count, acc =>
    if !env.saveOk count then some (acc, .exception)
    else
      let acc' := acc ++ [frameName count]
      -- `count += 1` then `if self.stop: break`
      if env.stopAt count then some (acc', .normal)
      else capture_loop env fuel (count + 1) acc'

/-- `ScreenRecorder.start_capturing`: `count = 0`, create the scratch
directory, then run the loop. -/
def start_capturing (env : LoopEnv) (fuel : Nat) :
    Option (List String × LoopExit) :=
  capture_loop env fuel 0 []

/-- Frames already written are never dropped by later iterations. -/
theorem capture_loop_prefix (env : LoopEnv) :
    ∀ (fuel count : Nat) (acc files : List String) (ex : LoopExit),
      capture_loop env fuel count acc = some (files, ex) → acc <+: files := by
  intro fuel
  induction fuel with
  | zero => intro count acc files ex h; simp [capture_loop] at h
  | succ n ih =>
    intro count acc files ex h
    simp only [capture_loop] at h
    by_cases hs : env.saveOk count
    · simp [hs] at h
      by_cases hstop : env.stopAt count
      · simp [hstop] at h
        exact h.1 ▸ List.prefix_append acc [frameName count]
      · simp [hstop] at h
        exact (List.prefix_append acc [frameName count]).trans (ih _ _ _ _ h)
    · simp [hs] at h
      exact h.1 ▸ List.prefix_refl acc

/-- A normal (`break`) exit always follows a successful save in the same
iteration, so it never leaves zero frames behind. -/
theorem capture_loop_normal_nonempty (env : LoopEnv) :
    ∀ (fuel count : Nat) (acc files : List String),
      capture_loop env fuel count acc = some (files, .normal) →
      files ≠ [] := by
  intro fuel
  induction fuel with
  | zero => intro count acc files h; simp [capture_loop] at h
  | succ n ih =>
    intro count acc files h
    simp only [capture_loop] at h
    by_cases hs : env.saveOk count
    · simp [hs] at h
      by_cases hstop : env.stopAt count
      · simp [hstop] at h
        intro hnil
        rw [← h] at hnil
        exact List.append_ne_nil_of_right_ne_nil acc (by simp) hnil
      · simp [hstop] at h
        exact ih _ _ _ h
    · simp [hs] at h

end EnhancedReports

namespace EnhancedReports

/-- C10: the capture loop checks the stop flag only after saving a frame:
in every terminating run whose first save succeeds, `vid_frame0.png` is
among the files written — even when the stop flag was already true before
the loop began — and a normal (`break`) exit never leaves zero frames. -/
theorem C10_first_frame_precedes_stop_check (env : LoopEnv) (fuel : Nat)
    (files : List String) (ex : LoopExit)
    (h : start_capturing env fuel = some (files, ex)) :
    (env.saveOk 0 = true → frameName 0 ∈ files ∧ 1 ≤ files.length) ∧
    (ex = .normal → files ≠ []) := by
  constructor
  · intro hs
    cases fuel with
    | zero => simp [start_capturing, capture_loop] at h
    | succ n =>
      simp only [start_capturing, capture_loop, hs, Bool.not_true,
        Bool.false_eq_true, if_false, List.nil_append] at h
      by_cases hstop : env.stopAt 0
      · simp only [hstop, if_true] at h
        obtain ⟨h1, h2⟩ := Option.some.inj h |> Prod.mk.inj
        rw [← h1]
        exact ⟨by simp, by simp⟩
      · simp only [hstop, if_false] at h
        have hpre := capture_loop_prefix env n 1 [frameName 0] files ex h
        exact ⟨hpre.subset (by simp), le_trans (by simp) hpre.length_le⟩
  · intro hex
    subst hex
    exact capture_loop_normal_nonempty env fuel 0 [] files h

/-- C10 witness: a run with the stop flag already set and a succeeding
driver writes exactly `vid_frame0.png` and exits normally. -/
theorem C10_first_frame_precedes_stop_check_witness :
    frameName 0 ∈ [frameName 0] ∧ 1 ≤ ([frameName 0] : List String).length :=
  (C10_first_frame_precedes_stop_check ⟨fun _ => true, fun _ => true⟩ 1
    [frameName 0] .normal rfl).1 rfl

end EnhancedReports

namespace EnhancedReports

/-! ## Screenshot resizing (`screenshot_manager.__get_resized_image`) -/

/-- The resize options of `__report_options` that `__get_resized_image`
reads. -/
structure SSOpts where
  ss_width : Int
  ss_height : Int
  ss_resize_percent : Int
  deriving DecidableEq, Repr

/-- The resize-target selection of `__get_resized_image`
(`screenshot_manager.py` lines 107-144): the configured (width, height)
pair is used unless it equals exactly `(0, 0)`, in which case the source
resolution is scaled by `resize_percent / 100`. (The module-level caches
`__desired_resolution` / `__resize_factor` start as `None` and always
resolve to these same option-derived values, so they are observationally
transparent for a fixed configuration.) -/
def ss_desired_resolution (opts : SSOpts) (imgWidth imgHeight : Int) :
    Int × Int :=
  let desired := (opts.ss_width, opts.ss_height)
  let resize_factor : ℚ := (opts.ss_resize_percent : ℚ) / 100
  if desired = (0, 0) then
    get_resized_resolution imgWidth imgHeight resize_factor
  else desired

/-- C4 counterexample: with configured width 100, height 0 and resize
percentage 50, the target selected for a 200x100 source is `(100, 0)` —
the partially-zero box is used as-is, not the claimed percentage fallback
`(100, 50)`. -/
theorem C4_partial_zero_box_counterexample :
    ss_desired_resolution ⟨100, 0, 50⟩ 200 100 = (100, 0) ∧
    ((100, 0) : Int × Int) ≠ (100, 50) := by
  refine ⟨rfl, by decide⟩

/-- C4 (amended): the explicitly configured box is used whenever it differs
from `(0, 0)` — partially-zero boxes included — and the percentage path
runs only when both width and height are 0; then a 200x100 source at 50%
targets 100x50. -/
theorem C4_resize_target_selection :
    (∀ (opts : SSOpts) (iw ih : Int),
        (opts.ss_width, opts.ss_height) ≠ (0, 0) →
        ss_desired_resolution opts iw ih = (opts.ss_width, opts.ss_height)) ∧
    ss_desired_resolution ⟨0, 0, 50⟩ 200 100 = (100, 50) := by
  constructor
  · intro opts iw ih h
    simp only [ss_desired_resolution, if_neg h]
  · norm_num [ss_desired_resolution, get_resized_resolution, pyTrunc]

/-- C4 witness: the amended theorem applied at the partially-zero box
`(100, 0)` on a 300x200 source. -/
theorem C4_resize_target_selection_witness :
    ss_desired_resolution ⟨100, 0, 50⟩ 300 200 = (100, 0) :=
  C4_resize_target_selection.1 ⟨100, 0, 50⟩ 300 200 (by decide)

end EnhancedReports

namespace EnhancedReports

/-! ## Fail-silent capture (`common_utils.fail_silently`,
`screenshot_manager.py`) -/

/-- `common_utils.fail_silently`: any exception raised by the wrapped
callable is logged and swallowed, and the call yields Python `None`
(modelled as `none`); a normal return is passed through. -/
def fail_silently {α : Type} : Except PyErr α → Option α
  | .ok a => some a
  | .error _ => none

/-- The driver surface `get_screenshot` touches: whether a native
alert/dialog is currently open, and the outcome of the
`get_screenshot_as_base64` + `__get_resized_image` pipeline when it is
invoked (external calls that may raise). -/
structure SSDriver where
  alert_present : Bool
  pipeline : Except PyErr String

/-- The undecorated body of `get_screenshot` (`screenshot_manager.py` lines
26-48): return `""` when an alert is open — without touching the driver's
screenshot capability — otherwise run the capture/resize pipeline. The
second component records whether the screenshot capability was invoked. -/
def get_screenshot_body (d : SSDriver) : Except PyErr String × Bool :=
  if d.alert_present then (.ok "", false)
  else (d.pipeline, true)

/-- `get_screenshot` as exported: the body wrapped in `fail_silently`, so
no exception can escape; a raised error becomes `none`. -/
def get_screenshot (d : SSDriver) : Option String × Bool :=
  (fail_silently (get_screenshot_body d).1, (get_screenshot_body d).2)

/-- C9: `get_screenshot` never raises (it returns an `Option`, every raise
of the body becoming `none`): with an open native alert it returns the
empty string without invoking the driver's screenshot capability, and any
driver error in the pipeline yields the empty result `none`. -/
theorem C9_get_screenshot_fail_silent (d : SSDriver) :
    (d.alert_present = true → get_screenshot d = (some "", false)) ∧
    (∀ e : PyErr, d.alert_present = false → d.pipeline = .error e →
      (get_screenshot d).1 = none) := by
  constructor
  · intro h
    simp [get_screenshot, get_screenshot_body, h, fail_silently]
  · intro e halert herr
    simp [get_screenshot, get_screenshot_body, halert, herr, fail_silently]

/-- C9 witness: the theorem applied with an alert open, and with a raising
pipeline. -/
theorem C9_get_screenshot_fail_silent_witness :
    get_screenshot ⟨true, .ok "img"⟩ = (some "", false) ∧
    (get_screenshot ⟨false, .error .webDriverError⟩).1 = none :=
  ⟨(C9_get_screenshot_fail_silent ⟨true, .ok "img"⟩).1 rfl,
   (C9_get_screenshot_fail_silent ⟨false, .error .webDriverError⟩).2
     .webDriverError rfl rfl⟩

/-! ## Element highlighting (`screenshot_manager.get_highlighted_screenshot`) -/

/-- The DOM element targeted by the highlight script: its attributes as a
total map (an attribute that is not present reads as the empty string, as
the driver's `get_attribute("style")` does for an element without inline
style). -/
structure Element where
  attr : String → String

/-- `apply_style(s)` from `get_highlighted_screenshot`:
`arguments[0].setAttribute('style', arguments[1])` run through the
driver's script execution — it rewrites exactly the `style` attribute. -/
def apply_style (e : Element) (s : String) : Element :=
  ⟨fun name => if name = "style" then s else e.attr name⟩

/-- The highlight border style string:
`"border: {0}px solid {1}; padding:{2}px".format(border_width, color, 5)`. -/
def highlight_style (border_width : Int) (color : String) : String :=
  "border: " ++ toString border_width ++ "px solid " ++ color ++
    "; padding:" ++ toString (5 : Nat) ++ "px"

/-- `get_highlighted_screenshot` (`screenshot_manager.py` lines 51-90):
read the original style attribute, apply the highlight border, take the
screenshot — whose body outcome `captureOutcome` cannot escape as an
exception because the inner `get_screenshot` is decorated with
`fail_silently` — then re-apply the original style. -/
def get_highlighted_screenshot (e : Element)
    (captureOutcome : Except PyErr String) (color : String)
    (border_width : Int) : Option String × Element :=
  let original_style := e.attr "style"
  let e1 := apply_style e (highlight_style border_width color)
  let path := fail_silently captureOutcome
  let e2 := apply_style e1 original_style
  (path, e2)

/-- C6: after `get_highlighted_screenshot` returns, every attribute of the
element — `style` included — equals its value before the call, for every
capture outcome, the failing ones included; and during capture the style
attribute carried exactly the highlight border. -/
theorem C6_highlight_restores_style (e : Element)
    (cap : Except PyErr String) (color : String) (bw : Int) :
    (∀ name, ((get_highlighted_screenshot e cap color bw).2).attr name =
      e.attr name) ∧
    (apply_style e (highlight_style bw color)).attr "style" =
      highlight_style bw color := by
  constructor
  · intro name
    simp only [get_highlighted_screenshot, apply_style]
    by_cases h : name = "style" <;> simp [h]
  · simp [apply_style]

end EnhancedReports

namespace EnhancedReports

/-! ## Console-log capture (`browser_console_manager.py`) -/

/-- One entry of `driver.get_log("browser")`: a millisecond epoch
timestamp, a level, a source and a message. -/
structure LogEntry where
  timestamp : Int
  level : String
  source : String
  message : String

/-- `_format_outputs` (`browser_console_manager.py` lines 31-47): start
from the empty string and, for each entry in driver order, append
`"{} {} {} {}\n".format(time, level, source, message)`, where the time is
`datetime.fromtimestamp(timestamp / 1000).strftime("%Y-%m-%d %H:%M:%S")`.
The local-time rendering is environment-dependent, so it is abstracted as
the parameter `localTimeFmt`, applied to the exact second value
`timestamp / 1000`. -/
def format_outputs (localTimeFmt : ℚ → String) (logs : List LogEntry) :
    String :=
  logs.foldl (fun output item =>
    output ++ localTimeFmt ((item.timestamp : ℚ) / 1000) ++ " " ++
      item.level ++ " " ++ item.source ++ " " ++ item.message ++ "\n") ""

/-- `get_js_logs`: fetch the browser log buffer in driver order and format
it. -/
def get_js_logs (localTimeFmt : ℚ → String) (driverLogs : List LogEntry) :
    String :=
  format_outputs localTimeFmt driverLogs

/-- Specification-side line format, written from the spec's words: one
line `<local-time> <level> <source> <message>` terminated by a newline. -/
def specConsoleLine (localTimeFmt : ℚ → String) (item : LogEntry) : String :=
  localTimeFmt ((item.timestamp : ℚ) / 1000) ++ " " ++ item.level ++ " " ++
    item.source ++ " " ++ item.message ++ "\n"

/-- Specification-side output, written from the spec's words: exactly one
such line per entry, in the order the driver returned them; empty log =
empty string. -/
def specConsoleOutput (localTimeFmt : ℚ → String) :
    List LogEntry → String
  | [] => ""
  | item :: rest =>
    specConsoleLine localTimeFmt item ++ specConsoleOutput localTimeFmt rest

/-- The accumulating fold of `_format_outputs` prepends its accumulator to
the specification-side rendering of the remaining entries. -/
theorem format_outputs_foldl (f : ℚ → String) (logs : List LogEntry) :
    ∀ acc : String,
      logs.foldl (fun output item =>
        output ++ f ((item.timestamp : ℚ) / 1000) ++ " " ++ item.level ++
          " " ++ item.source ++ " " ++ item.message ++ "\n") acc =
      acc ++ specConsoleOutput f logs := by
  induction logs with
  | nil => intro acc; simp [specConsoleOutput]
  | cons item rest ih =>
    intro acc
    rw [List.foldl_cons, ih]
    simp only [specConsoleOutput, specConsoleLine, String.append_assoc]

/-- C7: the console-log capturer emits exactly one newline-terminated line
per entry, in driver order, each formatted local-time level source
message; the empty list yields the empty string; and on the spec's example
entry the output is the single line
`<local time for 1700000000000> INFO console-api hi\n`. -/
theorem C7_console_log_line_per_entry (f : ℚ → String)
    (logs : List LogEntry) :
    format_outputs f logs = specConsoleOutput f logs ∧
    format_outputs f [] = "" ∧
    format_outputs f [⟨1700000000000, "INFO", "console-api", "hi"⟩] =
      f 1700000000 ++ " INFO console-api hi\n" := by
  refine ⟨?_, rfl, ?_⟩
  · have h := format_outputs_foldl f logs ""
    simpa [format_outputs] using h
  · have h := format_outputs_foldl f
      [⟨1700000000000, "INFO", "console-api", "hi"⟩] ""
    simp only [format_outputs] at h ⊢
    rw [h]
    simp only [specConsoleOutput, specConsoleLine, String.append_assoc]
    norm_num
    congr 1

end EnhancedReports
